import Mathlib

/-!
Formal model of the WAN 2.2 gateway job-lifecycle core (src/app.py).

The embedding is shallow: each Python function of the job-lifecycle core is
translated to a pure Lean function.  Mutable state (the in-process jobs_store
dict) is passed explicitly as a value of type Store; every timestamp taken by
datetime.utcnow() appears as an explicit String (or Nat-indexed String)
parameter; network and JSON-parsing effects appear as explicit inputs
(an Except for a request body that may fail to parse, a function from poll
number to provider response for the polling loop).

Notes on fidelity:
  - jobs_store is a Python dict keyed by job id.  It is modelled as an
    insertion-ordered association list; assignment jobs[job_id] = job_data
    replaces in place when the key exists and appends otherwise, exactly as
    a Python dict does.
  - Python list.sort(key=..., reverse=True) is a stable sort: elements with
    equal keys keep their original relative order.  sortByCreatedDesc below
    is a stable descending insertion sort, which computes the same result.
  - The float-valued generation parameters cfg_scale and duration_seconds
    are carried by the source record but never read by any of the modelled
    logic; they are elided from the Job structure.
  - The settings dict of the create request (new-format parameters) is
    modelled as absent (None), i.e. the legacy-field path of api_create_job;
    no modelled property depends on the settings-merging expressions.
  - int((i + 1) / steps * 85) in simulate_generation is modelled as exact
    integer arithmetic (i + 1) * 85 / steps with steps = 10.
-/

/-- A provider output object, as read by output.get("video_url"),
output.get("url") and output.get("result") in the source. -/
structure ProviderOutput where
  video_url : Option String
  url : Option String
  result : Option String
  deriving DecidableEq, Repr

/-- Python truthiness of an optional string: None and the empty string are
falsy. -/
def truthyOpt : Option String → Bool
  | none => false
  | some s => !(s == "")

/-- Python a or b on optional strings: a when truthy, otherwise b. -/
def pyOr (a b : Option String) : Option String :=
  if truthyOpt a then a else b

/-- Python str.upper(), character by character (the source only applies it
to ASCII provider statuses). -/
def pyUpper (s : String) : String :=
  ⟨s.data.map Char.toUpper⟩

/-- Lexicographic comparison of character lists by code point.  Python
compares strings exactly this way. -/
def charListLe : List Char → List Char → Bool
  | [], _ => true
  | _ :: _, [] => false
  | a :: as, b :: bs =>
    if a.toNat < b.toNat then true
    else if b.toNat < a.toNat then false
    else charListLe as bs

/-- Python string comparison a <= b. -/
def pyStrLe (a b : String) : Bool :=
  charListLe a.data b.data

/-- A job record, with the fields written by api_create_job (src/app.py
lines 365-386) and mutated by the driver and the webhook ingest. -/
structure Job where
  job_id : String
  prompt : String
  negative_prompt : String
  seed : Int
  steps : Int
  fps : Int
  width : Int
  height : Int
  aspect : String
  image_url : Option String
  status : String
  progress : Int
  message : String
  created_at : String
  completed_at : Option String
  video_url : Option String
  error : Option String
  output : Option ProviderOutput
  runpod_job_id : Option String
  deriving DecidableEq, Repr

/-- The jobs_store dict: an insertion-ordered map from job id to record. -/
abbrev Store := List (String × Job)

/-- jobs[job_id] = job_data followed by save_jobs: replace in place when the
key is present, append otherwise (Python dict assignment semantics). -/
def save_job : Store → String → Job → Store
  | [], job_id, job_data => [(job_id, job_data)]
  | p :: t, job_id, job_data =>
    if p.fst = job_id then (job_id, job_data) :: t
    else p :: save_job t job_id job_data

/-- jobs.get(job_id). -/
def get_job (s : Store) (job_id : String) : Option Job :=
  (s.find? (fun p => p.fst == job_id)).map Prod.snd

/-- One step of the stable descending insertion sort realizing
job_list.sort(key=lambda x: x.get("created_at", ""), reverse=True):
insert j before the first element whose created_at is at most j's, so that
elements with equal created_at keep insertion order (j comes from earlier in
the list than everything it is inserted into). -/
def insertByCreatedDesc (j : Job) : List Job → List Job
  | [] => [j]
  | h :: t =>
    if pyStrLe h.created_at j.created_at then j :: h :: t
    else h :: insertByCreatedDesc j t

/-- Stable sort by created_at descending. -/
def sortByCreatedDesc : List Job → List Job
  | [] => []
  | x :: xs => insertByCreatedDesc x (sortByCreatedDesc xs)

/-- get_all_jobs: list(jobs.values()) sorted by created_at descending,
stably. -/
def get_all_jobs (s : Store) : List Job :=
  sortByCreatedDesc (s.map Prod.snd)

/-- get_recent_jobs: get_all_jobs()[:limit]. -/
def get_recent_jobs (s : Store) (limit : Nat) : List Job :=
  (get_all_jobs s).take limit

/-- The characters removed by Python str.strip() on ASCII input. -/
def isPythonSpace (c : Char) : Bool :=
  c == ' ' || c == '\t' || c == '\n' || c == '\r' || c == '\x0b' || c == '\x0c'

/-- Python str.strip(): drop leading and trailing whitespace. -/
def pyStrip (s : String) : String :=
  ⟨((s.toList.dropWhile isPythonSpace).reverse.dropWhile isPythonSpace).reverse⟩

/-- The JobCreateRequest body, legacy-field path (settings = None). -/
structure JobCreateRequest where
  prompt : String
  negative_prompt : Option String
  seed : Option Int
  steps : Option Int
  fps : Option Int
  width : Option Int
  height : Option Int
  image_url : Option String
  deriving DecidableEq, Repr

/-- Python value or default for an optional int, where None and 0 are
falsy. -/
def pyOrInt (a : Option Int) (d : Int) : Int :=
  match a with
  | none => d
  | some v => if v = 0 then d else v

/-- An HTTPException raised by a route handler. -/
structure HttpError where
  status : Nat
  detail : String
  deriving DecidableEq, Repr

/-- The JSON body returned by a successful job creation. -/
structure CreateResponse where
  ok : Bool
  job_id : String
  status : String
  deriving DecidableEq, Repr

/-- The job_data record built by api_create_job (src/app.py lines 365-386),
for a request on the legacy-field path.  new_id is the generated job id and
now the datetime.utcnow() timestamp. -/
def createdJob (r : JobCreateRequest) (new_id now : String) : Job :=
  { job_id := new_id
    prompt := pyStrip r.prompt
    negative_prompt := (r.negative_prompt.filter (fun s => !(s == ""))).getD ""
    seed := match r.seed with
      | none => -1
      | some v => if v ≠ 0 ∧ v > 0 then v else -1
    steps := pyOrInt r.steps 30
    fps := pyOrInt r.fps 24
    width := pyOrInt r.width 512
    height := pyOrInt r.height 512
    aspect := "16:9"
    image_url := r.image_url
    status := "queued"
    progress := 0
    message := "Job queued"
    created_at := now
    completed_at := none
    video_url := none
    error := none
    output := none
    runpod_job_id := none }

/-- api_create_job: reject a blank prompt with a 400 before touching the
store, otherwise save the queued record and acknowledge. -/
def api_create_job (s : Store) (r : JobCreateRequest) (new_id now : String) :
    Store × Except HttpError CreateResponse :=
  if pyStrip r.prompt = "" then
    (s, Except.error ⟨400, "Prompt cannot be empty"⟩)
  else
    (save_job s new_id (createdJob r new_id now),
     Except.ok ⟨true, new_id, "queued"⟩)

/-- api_list_jobs: take the limit most recent jobs, then filter by status
when a truthy status is supplied. -/
def api_list_jobs (s : Store) (limit : Nat) (status : Option String) :
    List Job :=
  let jobs := get_recent_jobs s limit
  if truthyOpt status then jobs.filter (fun j => j.status == status.getD "")
  else jobs

/-- The JSON body returned by api_get_job. -/
structure JobStatusView where
  job_id : String
  status : String
  video_url : Option String
  error : Option String
  progress : Int
  message : String
  deriving DecidableEq, Repr

/-- api_get_job: 404 on an unknown id, otherwise a view of the record. -/
def api_get_job (s : Store) (job_id : String) :
    Except HttpError JobStatusView :=
  match get_job s job_id with
  | none => Except.error ⟨404, "Job not found"⟩
  | some j => Except.ok ⟨j.job_id, j.status, j.video_url, j.error, j.progress, j.message⟩

/-- A parsed webhook body: data.get("status", ""), data.get("output", ...)
and data.get("error", ...). -/
structure WebhookPayload where
  status : String
  output : ProviderOutput
  error : Option String
  deriving DecidableEq, Repr

/-- The acknowledgement dict returned (with HTTP 200) by api_webhook once
the job id was found: ok is False exactly when an exception was caught. -/
structure WebhookAck where
  ok : Bool
  error : Option String
  deriving DecidableEq, Repr

/-- The mutation api_webhook applies to the looked-up record (src/app.py
lines 440-458): unconditional field assignments on the record, with no check
of the previously stored status. -/
def applyWebhook (j : Job) (data : WebhookPayload) (now : String) : Job :=
  let status := pyUpper data.status
  if status = "COMPLETED" then
    let output := data.output
    let video_url := pyOr output.video_url output.url
    { j with status := "completed", video_url := video_url,
             output := some output, progress := 100,
             message := "Complete!", completed_at := some now }
  else if status = "FAILED" then
    { j with status := "failed",
             error := some (data.error.getD "Job failed"),
             completed_at := some now }
  else
    { j with message := "Webhook: " ++ status }

/-- api_webhook.  The body argument is the outcome of request.json() and of
the dict accesses on it: an Except.error models any exception raised there,
which in the source happens before the first mutation of the record.  An
unknown job id raises a 404 HTTPException; every other outcome is an HTTP
200 acknowledgement. -/
def api_webhook (s : Store) (job_id : String)
    (body : Except String WebhookPayload) (now : String) :
    Store × Except HttpError WebhookAck :=
  match get_job s job_id with
  | none => (s, Except.error ⟨404, "Job not found"⟩)
  | some job =>
    match body with
    | Except.error e => (s, Except.ok ⟨false, some e⟩)
    | Except.ok data =>
      (save_job s job_id (applyWebhook job data now), Except.ok ⟨true, none⟩)

/-- The progress value written by loop iteration i of simulate_generation:
10 + int((i + 1) / steps * 85) with steps = 10 (exact integer arithmetic). -/
def simProgressAt (i : Nat) : Int :=
  10 + ((i + 1) * 85) / 10

/-- The first write of simulate_generation. -/
def simInit (j : Job) : Job :=
  { j with status := "running",
           message := "Initializing generation (simulated mode)...",
           progress := 10 }

/-- The write of loop iteration i of simulate_generation. -/
def simStep (j : Job) (i : Nat) : Job :=
  { j with progress := simProgressAt i,
           message := "Generating video... (" ++ toString (simProgressAt i) ++ "%)" }

/-- The record after the initial write and the first n loop writes of
simulate_generation. -/
def simAfter (j : Job) : Nat → Job
  | 0 => simInit j
  | i + 1 => simStep (simAfter j i) i

/-- The terminal write of simulate_generation: completed either with the
demo asset or with an explanatory message, with progress 100 and
completed_at stamped. -/
def simFinish (j : Job) (sample_exists : Bool) (now : String) : Job :=
  if sample_exists then
    { j with status := "completed",
             video_url := some "/static/sample.mp4",
             message := "Generation complete (demo mode)",
             progress := 100,
             completed_at := some now }
  else
    { j with status := "completed",
             video_url := none,
             message := "Generation complete - RunPod not connected yet. Configure RUNPOD_API_KEY and RUNPOD_ENDPOINT_ID for real video generation.",
             progress := 100,
             completed_at := some now }

/-- simulate_generation as a state transformer on the job record: the final
record after all ten loop writes and the terminal write.  sample_exists is
whether static/sample.mp4 exists, now the utcnow() timestamp of the terminal
write. -/
def simulate_generation (j : Job) (sample_exists : Bool) (now : String) : Job :=
  simFinish (simAfter j 10) sample_exists now

/-- The successive records written to the store by simulate_generation, in
order: the initial running write, the ten progress writes, the terminal
write. -/
def simulateWrites (j : Job) (sample_exists : Bool) (now : String) : List Job :=
  (List.range 11).map (fun i => simAfter j i)
    ++ [simulate_generation j sample_exists now]

/-- The JSON of one RunPod /status poll: status_data.get("status", ""),
status_data.get("output", ...) and status_data.get("error", ...). -/
structure PollResponse where
  status : String
  output : ProviderOutput
  error : Option String
  deriving DecidableEq, Repr

/-- The polling iteration budget of process_job_runpod. -/
def max_polls : Nat := 600

/-- The progress written by the IN_PROGRESS branch at poll_count = k:
min(15 + poll_count // 3, 95). -/
def pollProgress (k : Nat) : Int :=
  ((min (15 + k / 3) 95 : Nat) : Int)

/-- The timeout write after the while loop exits with the budget
exhausted. -/
def timeoutFail (j : Job) (now : String) : Job :=
  { j with status := "failed",
           error := some "Job timed out after 20 minutes",
           completed_at := some now }

/-- The while loop of process_job_runpod.  poll gives the provider response
to the i-th status request, now the utcnow() timestamp taken at iteration i.
The first argument is the remaining budget max_polls - poll_count, the
second the current poll_count; the loop body runs with poll_count already
incremented to k + 1. -/
def pollLoop (poll : Nat → PollResponse) (now : Nat → String) :
    Nat → Nat → Job → Job
  | 0, k, j => timeoutFail j (now (k + 1))
  | rem + 1, k, j =>
    let r := poll (k + 1)
    let runpod_status := pyUpper r.status
    if runpod_status = "COMPLETED" then
      { j with status := "completed",
               video_url := pyOr (pyOr r.output.video_url r.output.url) r.output.result,
               output := some r.output,
               message := "Generation complete!",
               progress := 100,
               completed_at := some (now (k + 1)) }
    else if runpod_status = "FAILED" then
      { j with status := "failed",
               error := some (r.error.getD "RunPod job failed"),
               completed_at := some (now (k + 1)) }
    else if runpod_status = "IN_PROGRESS" then
      pollLoop poll now rem (k + 1)
        { j with message := "Generating video... (" ++ runpod_status ++ ")",
                 progress := pollProgress (k + 1) }
    else
      pollLoop poll now rem (k + 1)
        { j with message := "Status: " ++ runpod_status }

/-- The first pre-loop write of the configured path of process_job_runpod. -/
def runpodConnectWrite (j : Job) : Job :=
  { j with status := "running", message := "Connecting to RunPod...",
           progress := 5 }

/-- The second pre-loop write. -/
def runpodSubmitWrite (j : Job) : Job :=
  { runpodConnectWrite j with
      message := "Starting generation on RunPod...", progress := 10 }

/-- The third pre-loop write, after the /run response supplied the provider
run id. -/
def runpodStart (j : Job) (runpod_job_id : String) : Job :=
  { runpodSubmitWrite j with
      runpod_job_id := some runpod_job_id,
      message := "RunPod job: " ++ runpod_job_id,
      progress := 15 }

/-- The successive pre-loop records written by the configured path. -/
def runpodStartWrites (j : Job) (runpod_job_id : String) : List Job :=
  [runpodConnectWrite j, runpodSubmitWrite j, runpodStart j runpod_job_id]

/-- process_job_runpod as a state transformer on the job record: with no
provider configured it runs simulate_generation; otherwise it performs the
pre-loop writes and enters the polling loop with poll_count = 0.  The
transport-exception handlers of the source (the two except clauses) are
outside the modelled fragment: no modelled input raises them. -/
def process_job_runpod (configured : Bool) (sample_exists : Bool)
    (runpod_job_id : String) (poll : Nat → PollResponse)
    (simNow : String) (now : Nat → String) (j : Job) : Job :=
  if configured then
    pollLoop poll now max_polls 0 (runpodStart j runpod_job_id)
  else
    simulate_generation j sample_exists simNow

/-- A concrete freshly created job record, used as a test fixture. -/
def wanDemoJob : Job :=
  { job_id := "w1"
    prompt := "a red fox in snow"
    negative_prompt := ""
    seed := -1
    steps := 30
    fps := 24
    width := 512
    height := 512
    aspect := "16:9"
    image_url := none
    status := "queued"
    progress := 0
    message := "Job queued"
    created_at := "2025-01-01T00:00:00Z"
    completed_at := none
    video_url := none
    error := none
    output := none
    runpod_job_id := none }

/-- A concrete job record already in the completed terminal state. -/
def wanCompletedJob : Job :=
  { wanDemoJob with
      status := "completed"
      progress := 100
      message := "Complete!"
      video_url := some "https://x/y.mp4"
      output := some ⟨some "https://x/y.mp4", none, none⟩
      completed_at := some "2025-01-01T00:05:00Z" }

/-- A concrete FAILED webhook payload. -/
def wanFailedPayload : WebhookPayload :=
  ⟨"FAILED", ⟨none, none, none⟩, some "boom"⟩

/-- A concrete COMPLETED webhook payload. -/
def wanCompletedPayload : WebhookPayload :=
  ⟨"COMPLETED", ⟨some "https://x/y.mp4", none, none⟩, none⟩

/-- A concrete job with the newer created_at of the two-job fixture store. -/
def wanJobA : Job :=
  { wanDemoJob with job_id := "a", created_at := "2025-01-02T00:00:00Z" }

/-- A concrete completed job with the older created_at of the two-job
fixture store. -/
def wanJobB : Job :=
  { wanDemoJob with job_id := "b", created_at := "2025-01-01T00:00:00Z",
                    status := "completed" }

/-- A provider stub that always reports IN_PROGRESS. -/
def wanStubPoll : Nat → PollResponse :=
  fun _ => ⟨"IN_PROGRESS", ⟨none, none, none⟩, none⟩

/-- A constant timestamp source. -/
def wanStubNow : Nat → String :=
  fun _ => "2025-01-01T00:10:00Z"

theorem get_job_save_job (s : Store) (id : String) (j : Job) :
    get_job (save_job s id j) id = some j := by
  induction s with
  | nil => simp [save_job, get_job, List.find?]
  | cons p t ih =>
    simp only [save_job]
    by_cases h : p.fst = id
    · simp [h, get_job, List.find?]
    · have hb : (p.fst == id) = false := by simp [h]
      simpa [get_job, List.find?, hb, h] using ih

theorem charListLe_refl : ∀ (l : List Char), charListLe l l = true
  | [] => rfl
  | a :: as => by
    simp [charListLe, charListLe_refl as]

theorem charListLe_total :
    ∀ (as bs : List Char), charListLe as bs = true ∨ charListLe bs as = true
  | [], _ => Or.inl rfl
  | _ :: _, [] => Or.inr rfl
  | a :: as, b :: bs => by
    by_cases h1 : a.toNat < b.toNat
    · left
      simp [charListLe, h1]
    · by_cases h2 : b.toNat < a.toNat
      · right
        simp [charListLe, h2]
      · rcases charListLe_total as bs with h | h
        · left
          simp [charListLe, h1, h2, h]
        · right
          simp [charListLe, h1, h2, h]

theorem charListLe_trans :
    ∀ (as bs cs : List Char), charListLe as bs = true →
      charListLe bs cs = true → charListLe as cs = true
  | [], _, _, _, _ => rfl
  | _ :: _, [], _, h1, _ => by simp [charListLe] at h1
  | _ :: _, _ :: _, [], _, h2 => by simp [charListLe] at h2
  | a :: as, b :: bs, c :: cs, h1, h2 => by
    simp only [charListLe] at h1 h2 ⊢
    by_cases hab : a.toNat < b.toNat <;> by_cases hba : b.toNat < a.toNat <;>
      by_cases hbc : b.toNat < c.toNat <;> by_cases hcb : c.toNat < b.toNat <;>
      simp only [hab, hba, hbc, hcb, if_pos, if_neg, if_true, if_false,
        ite_true, ite_false] at h1 h2 ⊢ <;>
      first
        | rfl
        | exact absurd h1 (by decide)
        | exact absurd h2 (by decide)
        | omega
        | (rw [if_pos (show a.toNat < c.toNat by omega)])
        | (rw [if_neg (show ¬ a.toNat < c.toNat by omega),
               if_neg (show ¬ c.toNat < a.toNat by omega)]
           exact charListLe_trans as bs cs h1 h2)

theorem pyStrLe_total (a b : String) :
    pyStrLe a b = true ∨ pyStrLe b a = true :=
  charListLe_total a.data b.data

theorem pyStrLe_trans {a b c : String} (h1 : pyStrLe a b = true)
    (h2 : pyStrLe b c = true) : pyStrLe a c = true :=
  charListLe_trans a.data b.data c.data h1 h2

theorem mem_insertByCreatedDesc (j x : Job) :
    ∀ (l : List Job), x ∈ insertByCreatedDesc j l ↔ x = j ∨ x ∈ l
  | [] => by simp [insertByCreatedDesc]
  | h :: t => by
    by_cases hc : pyStrLe h.created_at j.created_at = true
    · simp [insertByCreatedDesc, hc]
    · simp only [insertByCreatedDesc, if_neg hc, List.mem_cons,
        mem_insertByCreatedDesc j x t]
      tauto

theorem pairwise_insertByCreatedDesc (j : Job) :
    ∀ (l : List Job),
      l.Pairwise (fun a b => pyStrLe b.created_at a.created_at = true) →
      (insertByCreatedDesc j l).Pairwise
        (fun a b => pyStrLe b.created_at a.created_at = true)
  | [], _ => by simp [insertByCreatedDesc]
  | h :: t, hp => by
    rcases List.pairwise_cons.mp hp with ⟨hall, ht⟩
    by_cases hc : pyStrLe h.created_at j.created_at = true
    · rw [insertByCreatedDesc, if_pos hc]
      refine List.pairwise_cons.mpr ⟨?_, hp⟩
      intro x hx
      rcases List.mem_cons.mp hx with rfl | hxt
      · exact hc
      · exact pyStrLe_trans (hall x hxt) hc
    · rw [insertByCreatedDesc, if_neg hc]
      refine List.pairwise_cons.mpr
        ⟨?_, pairwise_insertByCreatedDesc j t ht⟩
      intro x hx
      rcases (mem_insertByCreatedDesc j x t).mp hx with rfl | hxt
      · exact (pyStrLe_total h.created_at x.created_at).resolve_left hc
      · exact hall x hxt

theorem pairwise_sortByCreatedDesc :
    ∀ (l : List Job),
      (sortByCreatedDesc l).Pairwise
        (fun a b => pyStrLe b.created_at a.created_at = true)
  | [] => by simp [sortByCreatedDesc]
  | x :: xs =>
    pairwise_insertByCreatedDesc x (sortByCreatedDesc xs)
      (pairwise_sortByCreatedDesc xs)

theorem filter_insertByCreatedDesc (j : Job) (k : String) :
    ∀ (l : List Job),
      (insertByCreatedDesc j l).filter (fun x => x.created_at == k)
        = if j.created_at == k then
            j :: l.filter (fun x => x.created_at == k)
          else l.filter (fun x => x.created_at == k)
  | [] => by
    cases hj : j.created_at == k <;>
      simp [insertByCreatedDesc, List.filter, hj]
  | h :: t => by
    by_cases hc : pyStrLe h.created_at j.created_at = true
    · rw [insertByCreatedDesc, if_pos hc]
      cases hj : j.created_at == k <;> simp [List.filter, hj]
    · rw [insertByCreatedDesc, if_neg hc, List.filter_cons,
        filter_insertByCreatedDesc j k t]
      by_cases hj : (j.created_at == k) = true
      · have hh : (h.created_at == k) = false := by
          apply beq_eq_false_iff_ne.mpr
          intro he
          apply hc
          rw [he.trans (eq_of_beq hj).symm]
          exact charListLe_refl _
        simp [hj, hh, List.filter_cons]
      · simp [hj, List.filter_cons]

theorem filter_sortByCreatedDesc (k : String) :
    ∀ (l : List Job),
      (sortByCreatedDesc l).filter (fun x => x.created_at == k)
        = l.filter (fun x => x.created_at == k)
  | [] => rfl
  | x :: xs => by
    show (insertByCreatedDesc x (sortByCreatedDesc xs)).filter _ = _
    rw [filter_insertByCreatedDesc x k (sortByCreatedDesc xs),
      filter_sortByCreatedDesc k xs, List.filter_cons]

theorem pyStrip_of_all_space {s : String}
    (h : s.toList.all isPythonSpace = true) : pyStrip s = "" := by
  unfold pyStrip
  have h1 : s.toList.dropWhile isPythonSpace = [] := by
    rw [List.dropWhile_eq_nil_iff]
    intro x hx
    exact List.all_eq_true.mp h x hx
  rw [h1]
  rfl

/-- C5: a create-job request whose prompt is empty or consists only of
whitespace is rejected synchronously with a 400 validation error and the
store is returned unchanged, so no Job record is ever created for it. -/
theorem empty_prompt_rejected (s : Store) (r : JobCreateRequest)
    (new_id now : String) (h : r.prompt.toList.all isPythonSpace = true) :
    (api_create_job s r new_id now).1 = s
    ∧ (api_create_job s r new_id now).2
        = Except.error ⟨400, "Prompt cannot be empty"⟩ := by
  have hp : pyStrip r.prompt = "" := pyStrip_of_all_space h
  simp [api_create_job, hp]

theorem empty_prompt_rejected_witness :
    ((" \t\n" : String).toList.all isPythonSpace = true)
    ∧ (api_create_job []
        ⟨" \t\n", none, none, none, none, none, none, none⟩ "id1" "t0").1 = []
    ∧ (api_create_job []
        ⟨" \t\n", none, none, none, none, none, none, none⟩ "id1" "t0").2
        = Except.error ⟨400, "Prompt cannot be empty"⟩ :=
  ⟨by decide,
   empty_prompt_rejected []
     ⟨" \t\n", none, none, none, none, none, none, none⟩ "id1" "t0" (by decide)⟩

/-- C6: for a job id not present in the store, api_get_job answers with a
404 HTTPException, api_webhook answers with a 404 HTTPException, and the
webhook leaves the store unchanged (api_get_job takes the store by value
and returns only a response, so it cannot change it). -/
theorem unknown_job_not_found (s : Store) (job_id : String)
    (body : Except String WebhookPayload) (now : String)
    (h : get_job s job_id = none) :
    api_get_job s job_id = Except.error ⟨404, "Job not found"⟩
    ∧ (api_webhook s job_id body now).1 = s
    ∧ (api_webhook s job_id body now).2
        = Except.error ⟨404, "Job not found"⟩ := by
  simp [api_get_job, api_webhook, h]

theorem unknown_job_not_found_witness :
    get_job [] "nonexistent" = none
    ∧ (api_get_job [] "nonexistent" = Except.error ⟨404, "Job not found"⟩
      ∧ (api_webhook [] "nonexistent" (Except.error "bad json") "t").1 = []
      ∧ (api_webhook [] "nonexistent" (Except.error "bad json") "t").2
          = Except.error ⟨404, "Job not found"⟩) :=
  ⟨rfl, unknown_job_not_found [] "nonexistent" (Except.error "bad json") "t" rfl⟩

/-- C8: the list operation returns jobs sorted by created_at descending;
jobs with equal created_at keep insertion order (for every key value, the
subsequence with that created_at equals the insertion-ordered original
subsequence); and the result is the sorted list truncated to the limit. -/
theorem list_jobs_sorted_stable_truncated (s : Store) (limit : Nat)
    (k : String) :
    (get_recent_jobs s limit).Pairwise
      (fun a b => pyStrLe b.created_at a.created_at = true)
    ∧ (get_all_jobs s).filter (fun x => x.created_at == k)
        = (s.map Prod.snd).filter (fun x => x.created_at == k)
    ∧ get_recent_jobs s limit = (get_all_jobs s).take limit := by
  refine ⟨?_, filter_sortByCreatedDesc k _, rfl⟩
  exact (pairwise_sortByCreatedDesc (s.map Prod.snd)).sublist
    (List.take_sublist _ _)

/-- C9: for a job id present in the store, a webhook request whose body
fails to parse (request.json() or the dict accesses on it raise before any
record mutation) is answered with an HTTP 200 acknowledgement carrying
ok = false and the error message, and the store is unchanged. -/
theorem webhook_parse_failure_acked (s : Store) (job_id : String) (j : Job)
    (e now : String) (h : get_job s job_id = some j) :
    (api_webhook s job_id (Except.error e) now).1 = s
    ∧ (api_webhook s job_id (Except.error e) now).2
        = Except.ok ⟨false, some e⟩ := by
  simp [api_webhook, h]

theorem webhook_parse_failure_acked_witness :
    get_job [("w1", wanDemoJob)] "w1" = some wanDemoJob
    ∧ ((api_webhook [("w1", wanDemoJob)] "w1"
          (Except.error "Expecting value") "t").1 = [("w1", wanDemoJob)]
      ∧ (api_webhook [("w1", wanDemoJob)] "w1"
          (Except.error "Expecting value") "t").2
          = Except.ok ⟨false, some "Expecting value"⟩) :=
  ⟨by decide,
   webhook_parse_failure_acked [("w1", wanDemoJob)] "w1" wanDemoJob
     "Expecting value" "t" (by decide)⟩

/-- C10: api_list_jobs applies the status filter only after truncating to
the limit most recent jobs: on a store holding a newer queued job and an
older completed job, asking for one completed job returns nothing although
a completed job exists (and is returned once the limit covers it). -/
theorem status_filter_after_truncation :
    api_list_jobs [("a", wanJobA), ("b", wanJobB)] 1 (some "completed") = []
    ∧ ((([("a", wanJobA), ("b", wanJobB)] : Store).map Prod.snd).filter
        (fun x => x.status == "completed")).length = 1
    ∧ api_list_jobs [("a", wanJobA), ("b", wanJobB)] 2 (some "completed")
        = [wanJobB] := by
  decide

/-- C4: when no poll ever reports a terminal provider status, the while
loop of process_job_runpod stops after the fixed iteration budget
max_polls = 600, which lies in 300-600, and writes terminal status failed
with the timed-out error message; the job does not stay running forever. -/
theorem poll_budget_exhaustion_fails (poll : Nat → PollResponse)
    (now : Nat → String) (j : Job)
    (h : ∀ i, pyUpper (poll i).status ≠ "COMPLETED"
          ∧ pyUpper (poll i).status ≠ "FAILED") :
    (pollLoop poll now max_polls 0 j).status = "failed"
    ∧ (pollLoop poll now max_polls 0 j).error
        = some "Job timed out after 20 minutes"
    ∧ 300 ≤ max_polls ∧ max_polls ≤ 600 := by
  have aux : ∀ (rem k : Nat) (j0 : Job),
      (pollLoop poll now rem k j0).status = "failed"
      ∧ (pollLoop poll now rem k j0).error
          = some "Job timed out after 20 minutes" := by
    intro rem
    induction rem with
    | zero =>
      intro k j0
      exact ⟨rfl, rfl⟩
    | succ n ih =>
      intro k j0
      have h1 := (h (k + 1)).1
      have h2 := (h (k + 1)).2
      simp only [pollLoop]
      rw [if_neg h1, if_neg h2]
      by_cases h3 : pyUpper (poll (k + 1)).status = "IN_PROGRESS"
      · rw [if_pos h3]
        exact ih (k + 1) _
      · rw [if_neg h3]
        exact ih (k + 1) _
  exact ⟨(aux max_polls 0 j).1, (aux max_polls 0 j).2, by decide, by decide⟩

theorem poll_budget_exhaustion_fails_witness :
    (∀ i, pyUpper (wanStubPoll i).status ≠ "COMPLETED"
        ∧ pyUpper (wanStubPoll i).status ≠ "FAILED")
    ∧ ((pollLoop wanStubPoll wanStubNow max_polls 0 wanDemoJob).status
          = "failed"
      ∧ (pollLoop wanStubPoll wanStubNow max_polls 0 wanDemoJob).error
          = some "Job timed out after 20 minutes"
      ∧ 300 ≤ max_polls ∧ max_polls ≤ 600) :=
  ⟨fun _ => ⟨(by decide : pyUpper "IN_PROGRESS" ≠ "COMPLETED"),
             (by decide : pyUpper "IN_PROGRESS" ≠ "FAILED")⟩,
   poll_budget_exhaustion_fails wanStubPoll wanStubNow wanDemoJob
     (fun _ => ⟨(by decide : pyUpper "IN_PROGRESS" ≠ "COMPLETED"),
                (by decide : pyUpper "IN_PROGRESS" ≠ "FAILED")⟩)⟩

/-- C7: the progress field stays an integer in 0-100 and never decreases
while non-terminal: the write sequence of simulate_generation starting from
the created record is chained non-decreasing and bounded; so are the
pre-loop writes of the configured driver path; the IN_PROGRESS poll write
min(15 + poll_count div 3, 95) is monotone in poll_count, at least 15, and
bounded by 100; and a webhook write either leaves progress unchanged (the
FAILED and non-terminal branches) or sets it to the terminal 100, so no
interleaved webhook write lowers the progress of a non-terminal record. -/
theorem progress_bounded_and_monotone (r : JobCreateRequest)
    (new_id t0 t1 rid : String) (sample : Bool) (k : Nat) :
    List.Chain' (fun a b => a.progress ≤ b.progress)
      (createdJob r new_id t0
        :: simulateWrites (createdJob r new_id t0) sample t1)
    ∧ (∀ w ∈ createdJob r new_id t0
          :: simulateWrites (createdJob r new_id t0) sample t1,
        0 ≤ w.progress ∧ w.progress ≤ 100)
    ∧ List.Chain' (fun a b => a.progress ≤ b.progress)
        (createdJob r new_id t0
          :: runpodStartWrites (createdJob r new_id t0) rid)
    ∧ pollProgress k ≤ pollProgress (k + 1)
    ∧ 15 ≤ pollProgress (k + 1)
    ∧ 0 ≤ pollProgress k ∧ pollProgress k ≤ 100
    ∧ (∀ (j0 : Job) (p : WebhookPayload) (t : String),
        (applyWebhook j0 p t).progress = j0.progress
        ∨ (applyWebhook j0 p t).progress = 100) := by
  have hm : (createdJob r new_id t0
        :: simulateWrites (createdJob r new_id t0) sample t1).map Job.progress
      = [0, 10, 18, 27, 35, 44, 52, 61, 69, 78, 86, 95, 100] := by
    cases sample <;> rfl
  refine ⟨?_, ?_, ?_, ?_, ?_, ?_, ?_, ?_⟩
  · refine (List.chain'_map Job.progress).mp ?_
    rw [hm]
    norm_num [List.chain'_cons]
  · intro w hw
    have h2 : w.progress
        ∈ ([0, 10, 18, 27, 35, 44, 52, 61, 69, 78, 86, 95, 100] : List Int) := by
      rw [← hm]
      exact List.mem_map_of_mem Job.progress hw
    have h3 : ∀ x ∈ ([0, 10, 18, 27, 35, 44, 52, 61, 69, 78, 86, 95, 100] :
        List Int), 0 ≤ x ∧ x ≤ 100 := by decide
    exact h3 _ h2
  · refine (List.chain'_map Job.progress).mp ?_
    rw [show (createdJob r new_id t0
        :: runpodStartWrites (createdJob r new_id t0) rid).map Job.progress
        = [0, 5, 10, 15] from rfl]
    norm_num [List.chain'_cons]
  · unfold pollProgress
    have hn : min (15 + k / 3) 95 ≤ min (15 + (k + 1) / 3) 95 := by omega
    exact_mod_cast hn
  · unfold pollProgress
    have hn : 15 ≤ min (15 + (k + 1) / 3) 95 := by omega
    exact_mod_cast hn
  · unfold pollProgress
    exact_mod_cast Nat.zero_le _
  · unfold pollProgress
    have hn : min (15 + k / 3) 95 ≤ 100 := by omega
    exact_mod_cast hn
  · intro j0 p t
    unfold applyWebhook
    by_cases h1 : pyUpper p.status = "COMPLETED"
    · simp [h1]
    · by_cases h2 : pyUpper p.status = "FAILED"
      · simp [h1, h2]
      · simp [h1, h2]

/-- C1 counterexample: a job already in the terminal completed state,
receiving a later FAILED webhook write, has its status, error and
completed_at overwritten: the subsequent status-changing write is not a
no-op and the first terminal write does not win. -/
theorem terminal_overwrite_counterexample :
    wanCompletedJob.status = "completed"
    ∧ get_job ((api_webhook [("w1", wanCompletedJob)] "w1"
          (Except.ok wanFailedPayload) "2025-01-02T00:00:00Z").1) "w1"
        = some { wanCompletedJob with
                   status := "failed",
                   error := some "boom",
                   completed_at := some "2025-01-02T00:00:00Z" }
    ∧ (api_webhook [("w1", wanCompletedJob)] "w1"
          (Except.ok wanFailedPayload) "2025-01-02T00:00:00Z").1
        ≠ [("w1", wanCompletedJob)] := by
  refine ⟨rfl, by decide, by decide⟩

/-- C1 amended: writes are applied last-writer-wins with no terminal-state
protection: a webhook terminal write delivered to a job whose recorded
status is already terminal takes full effect, replacing status, error and
completed_at with the values of the later write. -/
theorem webhook_overwrites_terminal (s : Store) (job_id : String) (j : Job)
    (p : WebhookPayload) (now : String)
    (h : get_job s job_id = some j) (hj : j.status = "completed")
    (hp : pyUpper p.status = "FAILED") :
    get_job ((api_webhook s job_id (Except.ok p) now).1) job_id
      = some { j with status := "failed",
                      error := some (p.error.getD "Job failed"),
                      completed_at := some now } := by
  simp only [api_webhook, h]
  rw [get_job_save_job]
  have hd : applyWebhook j p now
      = { j with status := "failed",
                 error := some (p.error.getD "Job failed"),
                 completed_at := some now } := by
    simp [applyWebhook, hp]
  rw [hd]

theorem webhook_overwrites_terminal_witness :
    get_job [("w1", wanCompletedJob)] "w1" = some wanCompletedJob
    ∧ wanCompletedJob.status = "completed"
    ∧ pyUpper wanFailedPayload.status = "FAILED"
    ∧ get_job ((api_webhook [("w1", wanCompletedJob)] "w1"
          (Except.ok wanFailedPayload) "t2").1) "w1"
        = some { wanCompletedJob with
                   status := "failed",
                   error := some (wanFailedPayload.error.getD "Job failed"),
                   completed_at := some "t2" } :=
  ⟨by decide, rfl, by decide,
   webhook_overwrites_terminal [("w1", wanCompletedJob)] "w1"
     wanCompletedJob wanFailedPayload "t2" (by decide) rfl (by decide)⟩

/-- C2 counterexample: delivering the same COMPLETED webhook payload a
second time to an already-terminal job does not leave the record exactly
unchanged: completed_at is re-stamped with the delivery time, so the store
after the replay differs from the store before it. -/
theorem webhook_replay_not_noop_counterexample :
    (api_webhook
        (api_webhook [("w1", wanDemoJob)] "w1"
          (Except.ok wanCompletedPayload) "2025-01-01T00:05:00Z").1
        "w1" (Except.ok wanCompletedPayload) "2025-01-01T00:06:00Z").1
      ≠ (api_webhook [("w1", wanDemoJob)] "w1"
          (Except.ok wanCompletedPayload) "2025-01-01T00:05:00Z").1 := by
  decide

/-- C2 amended: replaying the same terminal webhook payload against an
already-terminal job leaves every field of the record unchanged except
completed_at, which is re-stamped with the time of the replayed delivery
(in particular a replay carrying the same timestamp is a no-op). -/
theorem webhook_replay_changes_only_completed_at (j : Job)
    (p : WebhookPayload) (t1 t2 : String)
    (h : pyUpper p.status = "COMPLETED" ∨ pyUpper p.status = "FAILED") :
    applyWebhook (applyWebhook j p t1) p t2
      = { applyWebhook j p t1 with completed_at := some t2 } := by
  rcases h with h | h <;> simp [applyWebhook, h]

theorem webhook_replay_changes_only_completed_at_witness :
    (pyUpper wanCompletedPayload.status = "COMPLETED"
      ∨ pyUpper wanCompletedPayload.status = "FAILED")
    ∧ applyWebhook (applyWebhook wanDemoJob wanCompletedPayload "t1")
          wanCompletedPayload "t2"
        = { applyWebhook wanDemoJob wanCompletedPayload "t1" with
              completed_at := some "t2" } :=
  ⟨Or.inl (by decide),
   webhook_replay_changes_only_completed_at wanDemoJob wanCompletedPayload
     "t1" "t2" (Or.inl (by decide))⟩

/-- C3 counterexample: with no provider configured, the driver leaves the
concrete created job completed, not failed, and records no error at all:
no "not configured" configuration error is ever written. -/
theorem unconfigured_not_failed_counterexample :
    (process_job_runpod false false "rp1" wanStubPoll
        "2025-01-01T00:10:00Z" wanStubNow wanDemoJob).status = "completed"
    ∧ (process_job_runpod false false "rp1" wanStubPoll
        "2025-01-01T00:10:00Z" wanStubNow wanDemoJob).status ≠ "failed"
    ∧ (process_job_runpod false false "rp1" wanStubPoll
        "2025-01-01T00:10:00Z" wanStubNow wanDemoJob).error = none := by
  refine ⟨rfl, by decide, rfl⟩

/-- C3 amended: when no provider is configured the driver runs the
simulation fallback, which drives the job to terminal status completed with
progress 100 and completed_at stamped; the error field is left untouched
(no "not configured" error is recorded), and video_url is the demo asset
when it exists and none (with an explanatory message) otherwise. -/
theorem simAfter_error (j : Job) :
    ∀ n, (simAfter j n).error = j.error
  | 0 => rfl
  | n + 1 => by
    show (simStep (simAfter j n) n).error = j.error
    rw [show ∀ (x : Job) (i : Nat), (simStep x i).error = x.error
        from fun _ _ => rfl]
    exact simAfter_error j n

theorem unconfigured_runs_simulation_to_completed (j : Job) (sample : Bool)
    (rid simNow : String) (poll : Nat → PollResponse) (now : Nat → String) :
    (process_job_runpod false sample rid poll simNow now j).status
        = "completed"
    ∧ (process_job_runpod false sample rid poll simNow now j).progress = 100
    ∧ (process_job_runpod false sample rid poll simNow now j).completed_at
        = some simNow
    ∧ (process_job_runpod false sample rid poll simNow now j).error = j.error
    ∧ (process_job_runpod false sample rid poll simNow now j).video_url
        = (if sample then some "/static/sample.mp4" else none) := by
  have herr : ∀ (x : Job) (se : Bool) (t : String),
      (simFinish x se t).error = x.error := by
    intro x se t
    cases se <;> rfl
  cases sample
  · exact ⟨rfl, rfl, rfl, (herr _ false simNow).trans (simAfter_error j 10), rfl⟩
  · exact ⟨rfl, rfl, rfl, (herr _ true simNow).trans (simAfter_error j 10), rfl⟩
